import Mathlib

/-!
# Verification of the cashu-escrow-kit escrow client core

Shallow embedding of the escrow trade protocol state machine of
`client/src/escrow_client/mod.rs` and of the messaging operations of
`common/src/nostr/mod.rs`.  External effects (the nostr relay pool, the
serde serializer/deserializer, the cdk wallet) are injected as explicit
environment records holding the outcome of each external call; the repo's
own control flow (ordering of calls, error propagation, phase construction)
is translated faithfully.  Machine side effects are recorded as an explicit
`Action` trace in the order the code starts them.
-/

deriving instance DecidableEq for Except

namespace CashuEscrow

/-- A nostr public key (`nostr_sdk::PublicKey`), modelled abstractly. -/
abbrev PublicKey := Nat

/-- `NostrClient` of `common/src/nostr/mod.rs`: we keep the identity
`keys.public_key()`; the relay-pool handle's effects are injected per call. -/
structure NostrClient where
  selfPk : PublicKey
  deriving DecidableEq, Repr

/-- `NostrClient::public_key`. -/
def NostrClient.public_key (nc : NostrClient) : PublicKey := nc.selfPk

/-- `TradeContract` (declared in `common/src/model`, not among the given
sources).  Only the fields the given sources read are modelled: the three
identity keys used as message recipients. -/
structure TradeContract where
  npubkey_coordinator : PublicKey
  npubkey_buyer : PublicKey
  npubkey_seller : PublicKey
  deriving DecidableEq, Repr

/-- `EscrowRegistration` (declared in `common/src/model`); its three fields
are visible at the construction site in
`NostrClient::send_escrow_registration`.  The cdk public key is kept as its
hex string. -/
structure EscrowRegistration where
  escrow_id_hex : String
  coordinator_escrow_pubkey : String
  escrow_start_time : Nat
  deriving DecidableEq, Repr

/-- `TradeMode` of `client/src/escrow_client/mod.rs`. -/
inductive TradeMode where
  | buyer
  | seller
  deriving DecidableEq, Repr

/-- `ClientEcashWallet` (from `client/src/ecash`, not among the given
sources): an opaque wallet handle; its operations' outcomes are injected by
the environment.  The one field read by the given sources (`main.rs`) is the
trade public key. -/
structure ClientEcashWallet where
  trade_pubkey : String
  deriving DecidableEq, Repr

/-- `cdk::nuts::Token`, opaque to the protocol core. -/
structure Token where
  raw : String
  deriving DecidableEq, Repr

/-- The error kinds of the core, classifying the `anyhow` errors by the
operation that produced them. -/
inductive EscrowError where
  /-- a messaging-layer failure: `send_private_msg`, `subscribe`, or
  `unwrap_gift_wrap` returning `Err` -/
  | transport (msg : String)
  /-- the `tokio::time::timeout` wrapper elapsing in `receive_escrow_message` -/
  | timeout
  /-- `serde_json::from_str` failing to parse a received payload -/
  | protocol (msg : String)
  /-- `serde_json::to_string` failing on an outbound payload -/
  | serializeFail (msg : String)
  /-- `ClientEcashWallet::create_escrow_token` failing -/
  | wallet (msg : String)
  /-- `ClientEcashWallet::validate_escrow_token` failing -/
  | validation (msg : String)
  deriving DecidableEq, Repr

/-- `nostr_sdk::Kind` as far as the given sources inspect it: the unwrapped
rumor is accepted only when its kind is `PrivateDirectMessage`. -/
inductive MsgKind where
  | privateDirectMessage
  | otherKind
  deriving DecidableEq, Repr

/-- The unwrapped rumor of a gift-wrapped event: its kind, its author
(`rumor.pubkey`, which the code never reads) and its content. -/
structure Rumor where
  kind : MsgKind
  sender : PublicKey
  content : String
  deriving DecidableEq, Repr

/-- One item the notification channel yields inside the receive loop of
`NostrClient::receive_escrow_message`, in arrival order within the timeout
window:
* `recvErr` — `notifications.recv()` returned `Err` (skipped by `if let Ok`);
* `nonEvent` — a `RelayPoolNotification` that is not `Event` (skipped);
* `event o` — an `Event` notification whose `unwrap_gift_wrap` outcome is `o`. -/
inductive Notification where
  | recvErr
  | nonEvent
  | event (unwrapOutcome : Except String Rumor)
  deriving DecidableEq, Repr

/-- The subscription filter built by `receive_escrow_message`:
`Filter::new().kind(Kind::GiftWrap).pubkey(self.keys.public_key()).limit(0)`. -/
structure MessageFilter where
  giftWrapKind : Bool
  pubkey : PublicKey
  limit : Nat
  deriving DecidableEq, Repr

/-- The filter `receive_escrow_message` subscribes with: gift-wrap events
whose `p` tag (recipient) is the client's own key. -/
def escrowFilter (nc : NostrClient) : MessageFilter :=
  { giftWrapKind := true, pubkey := nc.public_key, limit := 0 }

/-- Externally observable operations, recorded in the order the code starts
them. -/
inductive Action where
  /-- `tokio::spawn` of the `receive_escrow_message` listener in
  `register_trade` (its own identity and timeout argument recorded) -/
  | spawnListen (pk : PublicKey) (timeoutSecs : Nat)
  /-- `client.subscribe` inside `receive_escrow_message`; the timeout bound
  of the wait the subscription serves is recorded alongside -/
  | subscribe (f : MessageFilter) (timeoutSecs : Nat)
  /-- `client.unsubscribe` at the end of `receive_escrow_message` -/
  | unsubscribe
  /-- `client.send_private_msg(recipient, payload, None)` -/
  | send (recipient : PublicKey) (payload : String)
  /-- `ClientEcashWallet::create_escrow_token` -/
  | createEscrowToken
  /-- `ClientEcashWallet::validate_escrow_token` on a received payload -/
  | validateToken (payload : String)
  deriving DecidableEq, Repr

/-- Environment of one `receive_escrow_message` call: the outcome of
`client.subscribe` and the notifications delivered before the timeout
elapses (an exhausted list means the timeout fired first). -/
structure ReceiveEnv where
  subscribeOutcome : Except String String
  incoming : List Notification

/-- The receive loop (`loop_future` in `receive_escrow_message`) combined
with the `tokio::time::timeout` wrapper: notifications are processed in
order; channel errors and non-event notifications are skipped; a failing
`unwrap_gift_wrap` aborts with its error (the `?` inside the loop); an
unwrapped rumor is accepted iff its kind is `PrivateDirectMessage`;
exhausting the window yields the timeout error. -/
def processNotifications : List Notification → Except EscrowError String
  | [] => .error .timeout
  | .recvErr :: rest => processNotifications rest
  | .nonEvent :: rest => processNotifications rest
  | .event (.error e) :: _ => .error (.transport e)
  | .event (.ok r) :: rest =>
      if r.kind = .privateDirectMessage then .ok r.content
      else processNotifications rest

/-- `NostrClient::receive_escrow_message(&self, timeout_secs)`: subscribes
with `escrowFilter` (own key as recipient), runs the timeout-bounded loop,
then unsubscribes before returning, on every exit path of the wait.
Returns the result and the trace of resource actions. -/
def receive_escrow_message (nc : NostrClient) (env : ReceiveEnv)
    (timeout_secs : Nat) : Except EscrowError String × List Action :=
  match env.subscribeOutcome with
  | .error e => (.error (.transport e), [])
  | .ok _sid =>
      (processNotifications env.incoming,
       [.subscribe (escrowFilter nc) timeout_secs, .unsubscribe])

/-- A notification the loop skips without terminating. -/
def skippable : Notification → Bool
  | .recvErr => true
  | .nonEvent => true
  | .event (.error _) => false
  | .event (.ok r) => r.kind ≠ .privateDirectMessage

/-! ## The escrow client phase chain (`client/src/escrow_client/mod.rs`) -/

/-- `InitEscrowClient`: the Initialized phase. -/
structure InitEscrowClient where
  ecash_wallet : ClientEcashWallet
  escrow_contract : TradeContract
  trade_mode : TradeMode
  deriving DecidableEq, Repr

/-- `InitEscrowClient::new`. -/
def InitEscrowClient.new (ecash_wallet : ClientEcashWallet)
    (escrow_contract : TradeContract) (trade_mode : TradeMode) :
    InitEscrowClient :=
  { ecash_wallet, escrow_contract, trade_mode }

/-- `RegisteredEscrowClient<'a>`: the Registered phase.  In Rust
`prev_state` is a shared borrow `&'a InitEscrowClient`; the borrowed data is
embedded by value. -/
structure RegisteredEscrowClient where
  prev_state : InitEscrowClient
  escrow_registration : EscrowRegistration
  deriving DecidableEq, Repr

/-- `TokenExchangedEscrowClient<'a>`: the TokenExchanged phase.  The Rust
field is named `_prev_state` (a shared borrow of the Registered phase); the
exchanged token is not stored (a `todo` in the source). -/
structure TokenExchangedEscrowClient where
  prev_state : RegisteredEscrowClient
  deriving DecidableEq, Repr

/-- Environment of one `register_trade` call: the outcomes of the external
operations it performs, in program order.  `parseRegistration` stands for
`serde_json::from_str::<EscrowRegistration>`. -/
structure RegisterEnv where
  /-- `serde_json::to_string(&self.escrow_contract)` -/
  serializeOutcome : Except String String
  /-- `send_private_msg(coordinator, contract_message, None)` -/
  sendOutcome : Except String Unit
  /-- environment of the spawned `receive_escrow_message` task -/
  recvEnv : ReceiveEnv
  /-- `serde_json::from_str` on the received registration message -/
  parseRegistration : String → Except String EscrowRegistration

/-- `InitEscrowClient::register_trade(&self, nostr_client)`: spawns the
`receive_escrow_message` listener (timeout 10) first, then serializes the
contract, sends it to the coordinator, joins the listener and parses its
message into an `EscrowRegistration`; every failing step returns its error
(`?`).  The borrowed receiver is unchanged: the Rust method takes `&self`.
The trace records the actions the calling task starts, in program order;
the spawned listener's own subscribe/unsubscribe run concurrently and are
traced by `receive_escrow_message` itself.  (The `tokio::spawn` join error,
a task panic, is not modelled.) -/
def register_trade (c : InitEscrowClient) (nc : NostrClient)
    (env : RegisterEnv) :
    Except EscrowError RegisteredEscrowClient × List Action :=
  let listenAct := Action.spawnListen nc.public_key 10
  match env.serializeOutcome with
  | .error e => (.error (.serializeFail e), [listenAct])
  | .ok contract_message =>
    let sendAct := Action.send c.escrow_contract.npubkey_coordinator contract_message
    match env.sendOutcome with
    | .error e => (.error (.transport e), [listenAct, sendAct])
    | .ok () =>
      match (receive_escrow_message nc env.recvEnv 10).1 with
      | .error e => (.error e, [listenAct, sendAct])
      | .ok registration_message =>
        match env.parseRegistration registration_message with
        | .error e => (.error (.protocol e), [listenAct, sendAct])
        | .ok escrow_registration =>
            (.ok { prev_state := c, escrow_registration }, [listenAct, sendAct])

/-- Environment of one `exchange_trade_token` call. -/
structure ExchangeEnv where
  /-- `ClientEcashWallet::create_escrow_token(contract, registration)`
  (wallet internals are outside the given sources) -/
  mintOutcome : Except String String
  /-- `send_private_msg(npubkey_seller, escrow_token, None)` -/
  sendOutcome : Except String Unit
  /-- environment of the seller's `receive_escrow_message` call -/
  recvEnv : ReceiveEnv
  /-- `ClientEcashWallet::validate_escrow_token(message, contract,
  registration)` on the received payload -/
  validateOutcome : String → Except String Token

/-- `RegisteredEscrowClient::send_trade_token(&self, nostr_client)` (buyer):
mints the escrow token and, only on success, sends it to the seller's
identity; returns the sent token string. -/
def send_trade_token (r : RegisteredEscrowClient) (env : ExchangeEnv) :
    Except EscrowError String × List Action :=
  match env.mintOutcome with
  | .error e => (.error (.wallet e), [.createEscrowToken])
  | .ok escrow_token =>
    let sendAct :=
      Action.send r.prev_state.escrow_contract.npubkey_seller escrow_token
    match env.sendOutcome with
    | .error e => (.error (.transport e), [.createEscrowToken, sendAct])
    | .ok () => (.ok escrow_token, [.createEscrowToken, sendAct])

/-- `RegisteredEscrowClient::receive_and_validate_trade_token(&self,
nostr_client)` (seller): waits (timeout 10) for an incoming message —
`receive_escrow_message` subscribes to gift-wrap events addressed to the
client's own key — then validates the payload with the wallet.  (The Rust
call site passes `escrow_contract.npubkey_buyer` as a first argument which
the `receive_escrow_message` implementation in `common/src/nostr/mod.rs`
does not declare or use: its filter is built from `self.keys.public_key()`
and the unwrapped rumor's author is never inspected.) -/
def receive_and_validate_trade_token (r : RegisteredEscrowClient)
    (nc : NostrClient) (env : ExchangeEnv) :
    Except EscrowError Token × List Action :=
  let (res, tr) := receive_escrow_message nc env.recvEnv 10
  match res with
  | .error e => (.error e, tr)
  | .ok message =>
    match env.validateOutcome message with
    | .error e => (.error (.validation e), tr ++ [.validateToken message])
    | .ok t => (.ok t, tr ++ [.validateToken message])

/-- `RegisteredEscrowClient::exchange_trade_token(&self, nostr_client)`:
branches on the trade mode; the buyer mints and sends, the seller receives
and validates; on success the TokenExchanged phase holding this Registered
phase is produced (the exchanged token itself is not stored — `todo` in the
source). -/
def exchange_trade_token (r : RegisteredEscrowClient) (nc : NostrClient)
    (env : ExchangeEnv) :
    Except EscrowError TokenExchangedEscrowClient × List Action :=
  match r.prev_state.trade_mode with
  | .buyer =>
    match send_trade_token r env with
    | (.error e, tr) => (.error e, tr)
    | (.ok _token, tr) => (.ok { prev_state := r }, tr)
  | .seller =>
    match receive_and_validate_trade_token r nc env with
    | (.error e, tr) => (.error e, tr)
    | (.ok _token, tr) => (.ok { prev_state := r }, tr)

/-- `TokenExchangedEscrowClient::do_your_trade_duties(&self)`: the duty
fulfillment phase is an unimplemented placeholder in the source (its body is
two `todo` comments) and unconditionally returns `Ok(())`. -/
def do_your_trade_duties (_t : TokenExchangedEscrowClient) :
    Except EscrowError Unit :=
  .ok ()

/-- Modelled from the spec: the terminal duty-fulfillment outcome the spec
mandates for `do_your_trade_duties` («a terminal result classified as
Released or Disputed», §4.4/§8).  The source has no such type: the Rust
method returns `anyhow::Result<()>`. -/
inductive DutyOutcome where
  | released
  | disputed
  deriving DecidableEq, Repr

/-! ## Coordinator registration send (`common/src/nostr/mod.rs`) -/

/-- One hex digit, lowercase, as the `hex` crate renders nibbles. -/
def hexDigit (n : Nat) : Char :=
  if n < 10 then Char.ofNat (48 + n) else Char.ofNat (87 + n)

/-- `hex::encode` of one byte: high nibble then low nibble. -/
def byteHex (b : Nat) : String :=
  String.mk [hexDigit (b / 16 % 16), hexDigit (b % 16)]

/-- `hex::encode` of a byte string. -/
def hexEncode : List Nat → String
  | [] => ""
  | b :: bs => byteHex b ++ hexEncode bs

/-- `serde_json::to_string(&EscrowRegistration ..)`: the derived
serialization, fields in declaration order. -/
def registrationJson (r : EscrowRegistration) : String :=
  "\x7b\"escrow_id_hex\":\"" ++ r.escrow_id_hex
    ++ "\",\"coordinator_escrow_pubkey\":\"" ++ r.coordinator_escrow_pubkey
    ++ "\",\"escrow_start_time\":" ++ toString r.escrow_start_time ++ "\x7d"

/-- Environment of one `send_escrow_registration` call. -/
structure RegistrationSendEnv where
  /-- `cdk::nuts::PublicKey::from_hex(trade_pk)` (cdk is external): the
  parsed key, rendered as its hex string -/
  fromHexOutcome : Except String String
  /-- `Timestamp::now()` -/
  now : Nat
  /-- first `send_private_msg` (to `receivers.0`) -/
  send1Outcome : Except String Unit
  /-- second `send_private_msg` (to `receivers.1`) -/
  send2Outcome : Except String Unit

/-- `NostrClient::send_escrow_registration(&self, receivers, id, trade_pk)`:
builds one `EscrowRegistration` record — the hex encoding of the 32-byte
escrow id, the parsed coordinator escrow public key, the current timestamp —
serializes it once, and sends the same JSON string to `receivers.0` and then
to `receivers.1`. -/
def send_escrow_registration (receivers : PublicKey × PublicKey)
    (id : List Nat) (_trade_pk : String) (env : RegistrationSendEnv) :
    Except EscrowError Unit × List Action :=
  match env.fromHexOutcome with
  | .error e => (.error (.protocol e), [])
  | .ok pk =>
    let registration_json := registrationJson
      { escrow_id_hex := hexEncode id
        coordinator_escrow_pubkey := pk
        escrow_start_time := env.now }
    let act1 := Action.send receivers.1 registration_json
    let act2 := Action.send receivers.2 registration_json
    match env.send1Outcome with
    | .error e => (.error (.transport e), [act1])
    | .ok () =>
      match env.send2Outcome with
      | .error e => (.error (.transport e), [act1, act2])
      | .ok () => (.ok (), [act1, act2])

/-! ## Operational model of the API surface

The phase types' advancing methods take `&self` (a shared borrow): the
caller keeps the phase value after advancing, and each successful call
appends a fresh successor value.  A store of live phase values together
with the operations a caller can express gives the reachability structure
of the interface. -/

/-- A live phase value. -/
inductive PhaseVal where
  | initialized (c : InitEscrowClient)
  | registered (r : RegisteredEscrowClient)
  | exchanged (t : TokenExchangedEscrowClient)
  deriving DecidableEq, Repr

/-- One API call a caller can express: each addresses a live value by its
index and carries the environment of the call's external outcomes. -/
inductive Op where
  /-- `store[i].register_trade(nc)` — well-typed only on an Initialized value -/
  | registerTrade (i : Nat) (nc : NostrClient) (env : RegisterEnv)
  /-- `store[i].exchange_trade_token(nc)` — well-typed only on a Registered value -/
  | exchangeToken (i : Nat) (nc : NostrClient) (env : ExchangeEnv)
  /-- `store[i].do_your_trade_duties()` — well-typed only on a TokenExchanged
  value; returns `Ok(())` and creates no phase value -/
  | doDuties (i : Nat)

/-- Effect of one call on the store: the receiver is borrowed (`&self`), so
it stays live; a successful advancing call appends the produced successor;
a failing call, or one whose receiver is not of the method's phase, changes
nothing. -/
def applyOp (store : List PhaseVal) (op : Op) : List PhaseVal :=
  match op with
  | .registerTrade i nc env =>
    match store[i]? with
    | some (.initialized c) =>
      match (register_trade c nc env).1 with
      | .ok r => store ++ [.registered r]
      | .error _ => store
    | _ => store
  | .exchangeToken i nc env =>
    match store[i]? with
    | some (.registered r) =>
      match (exchange_trade_token r nc env).1 with
      | .ok t => store ++ [.exchanged t]
      | .error _ => store
    | _ => store
  | .doDuties _ => store

/-- A sequence of API calls, run left to right. -/
def runStore (store : List PhaseVal) (ops : List Op) : List PhaseVal :=
  ops.foldl applyOp store

/-- A phase value was produced by the one advancing operation of its
predecessor phase: a Registered value by a successful `register_trade` on
the Initialized value it holds, a TokenExchanged value by a successful
`exchange_trade_token` on the Registered value it holds. -/
def createdByAdvance : PhaseVal → Prop
  | .initialized _ => True
  | .registered r => ∃ nc env, (register_trade r.prev_state nc env).1 = .ok r
  | .exchanged t =>
      ∃ nc env, (exchange_trade_token t.prev_state nc env).1 = .ok t

/-- The full provenance chain of a phase value: itself and, for a
TokenExchanged value, also the Registered value it holds. -/
def chainOK : PhaseVal → Prop
  | .initialized _ => True
  | .registered r => createdByAdvance (.registered r)
  | .exchanged t =>
      createdByAdvance (.exchanged t)
        ∧ createdByAdvance (.registered t.prev_state)

/-! ## Helper lemmas -/

theorem processNotifications_skip (n : Notification) (rest : List Notification)
    (h : skippable n = true) :
    processNotifications (n :: rest) = processNotifications rest := by
  cases n with
  | recvErr => rfl
  | nonEvent => rfl
  | event o =>
    cases o with
    | error e => simp [skippable] at h
    | ok r =>
      have h' : ¬ r.kind = MsgKind.privateDirectMessage := by
        simpa [skippable] using h
      simp [processNotifications, h']

theorem processNotifications_append (pre xs : List Notification)
    (h : ∀ n ∈ pre, skippable n = true) :
    processNotifications (pre ++ xs) = processNotifications xs := by
  induction pre with
  | nil => rfl
  | cons n rest ih =>
    rw [List.cons_append,
      processNotifications_skip _ _ (h n (List.mem_cons_self n rest)),
      ih fun m hm => h m (List.mem_cons_of_mem n hm)]

theorem register_trade_ok_prev (c : InitEscrowClient) (nc : NostrClient)
    (env : RegisterEnv) (r : RegisteredEscrowClient)
    (h : (register_trade c nc env).1 = .ok r) : r.prev_state = c := by
  simp only [register_trade] at h
  split at h
  · simp at h
  · split at h
    · simp at h
    · split at h
      · simp at h
      · split at h
        · simp at h
        · simp only [Except.ok.injEq] at h
          subst h
          rfl

theorem exchange_trade_token_ok_prev (r : RegisteredEscrowClient)
    (nc : NostrClient) (env : ExchangeEnv) (t : TokenExchangedEscrowClient)
    (h : (exchange_trade_token r nc env).1 = .ok t) : t.prev_state = r := by
  simp only [exchange_trade_token] at h
  split at h
  · split at h
    · simp at h
    · simp only [Except.ok.injEq] at h
      subst h
      rfl
  · split at h
    · simp at h
    · simp only [Except.ok.injEq] at h
      subst h
      rfl

theorem applyOp_append (store : List PhaseVal) (op : Op) :
    ∃ new, applyOp store op = store ++ new
      ∧ ∀ v ∈ new, createdByAdvance v := by
  cases op with
  | registerTrade i nc env =>
    simp only [applyOp]
    split
    · split
      · next r hr =>
        refine ⟨[.registered r], rfl, ?_⟩
        intro v hv
        rw [List.mem_singleton] at hv
        subst hv
        exact ⟨nc, env, by
          rw [register_trade_ok_prev _ _ _ _ hr]; exact hr⟩
      · exact ⟨[], by simp, by simp⟩
    · exact ⟨[], by simp, by simp⟩
  | exchangeToken i nc env =>
    simp only [applyOp]
    split
    · split
      · next t ht =>
        refine ⟨[.exchanged t], rfl, ?_⟩
        intro v hv
        rw [List.mem_singleton] at hv
        subst hv
        exact ⟨nc, env, by
          rw [exchange_trade_token_ok_prev _ _ _ _ ht]; exact ht⟩
      · exact ⟨[], by simp, by simp⟩
    · exact ⟨[], by simp, by simp⟩
  | doDuties i => exact ⟨[], by simp [applyOp], by simp⟩

theorem applyOp_chainOK (store : List PhaseVal) (op : Op)
    (h : ∀ v ∈ store, chainOK v) : ∀ v ∈ applyOp store op, chainOK v := by
  cases op with
  | registerTrade i nc env =>
    simp only [applyOp]
    split
    · split
      · next r hr =>
        intro v hv
        rcases List.mem_append.1 hv with hv | hv
        · exact h v hv
        · rw [List.mem_singleton] at hv
          subst hv
          exact ⟨nc, env, by
            rw [register_trade_ok_prev _ _ _ _ hr]; exact hr⟩
      · exact h
    · exact h
  | exchangeToken i nc env =>
    simp only [applyOp]
    split
    · next r hget =>
      split
      · next t ht =>
        intro v hv
        rcases List.mem_append.1 hv with hv | hv
        · exact h v hv
        · rw [List.mem_singleton] at hv
          subst hv
          have hprev : t.prev_state = r := exchange_trade_token_ok_prev _ _ _ _ ht
          constructor
          · exact ⟨nc, env, by rw [hprev]; exact ht⟩
          · have hrmem : PhaseVal.registered r ∈ store :=
              List.getElem?_mem hget
            have := h _ hrmem
            rw [hprev]
            exact this
      · exact h
    · exact h
  | doDuties i => exact h

theorem runStore_chainOK (store : List PhaseVal) (ops : List Op)
    (h : ∀ v ∈ store, chainOK v) : ∀ v ∈ runStore store ops, chainOK v := by
  induction ops generalizing store with
  | nil => exact h
  | cons op ops ih => exact ih (applyOp store op) (applyOp_chainOK store op h)

theorem runStore_append (store : List PhaseVal) (ops : List Op) :
    ∃ rest, runStore store ops = store ++ rest
      ∧ ∀ v ∈ rest, createdByAdvance v := by
  induction ops generalizing store with
  | nil => exact ⟨[], by simp [runStore], by simp⟩
  | cons op ops ih =>
    obtain ⟨new, h1, h2⟩ := applyOp_append store op
    obtain ⟨rest, h3, h4⟩ := ih (applyOp store op)
    refine ⟨new ++ rest, ?_, ?_⟩
    · show runStore (applyOp store op) ops = _
      rw [h3, h1, List.append_assoc]
    · intro v hv
      rcases List.mem_append.1 hv with hv | hv
      · exact h2 v hv
      · exact h4 v hv

/-! ## Concrete fixtures for witnesses and counterexamples -/

/-- A concrete wallet handle. -/
def wallet0 : ClientEcashWallet := ⟨"tradepk0"⟩

/-- A concrete contract: coordinator 1, buyer 2, seller 3. -/
def contract0 : TradeContract := ⟨1, 2, 3⟩

/-- A buyer-mode Initialized client. -/
def init0 : InitEscrowClient := InitEscrowClient.new wallet0 contract0 .buyer

/-- A seller-mode Initialized client. -/
def initSeller0 : InitEscrowClient :=
  InitEscrowClient.new wallet0 contract0 .seller

/-- The buyer's nostr client: its identity is the buyer key 2. -/
def nc0 : NostrClient := ⟨2⟩

/-- A concrete coordinator-issued registration. -/
def reg0 : EscrowRegistration := ⟨"abc123", "deadbeef", 100⟩

/-- A private-direct-message rumor carrying the registration reply. -/
def pdmRumor0 : Rumor := ⟨.privateDirectMessage, 1, "regmsg"⟩

/-- A receive environment delivering one direct message. -/
def recvOK0 : ReceiveEnv := ⟨.ok "sub1", [.event (.ok pdmRumor0)]⟩

/-- A register environment in which every external step succeeds. -/
def regEnv0 : RegisterEnv := ⟨.ok "contractjson", .ok (), recvOK0, fun _ => .ok reg0⟩

/-- The Registered phase `register_trade init0 nc0 regEnv0` yields. -/
def rc0 : RegisteredEscrowClient := ⟨init0, reg0⟩

/-- An exchange environment in which every external step succeeds. -/
def xEnv0 : ExchangeEnv := ⟨.ok "tok0", .ok (), recvOK0, fun s => .ok ⟨s⟩⟩

/-- The TokenExchanged phase built over `rc0`. -/
def tx0 : TokenExchangedEscrowClient := ⟨rc0⟩

/-- A seller-mode Registered phase. -/
def rcSeller0 : RegisteredEscrowClient := ⟨initSeller0, reg0⟩

/-- A direct message whose author (key 99) is not the buyer (key 2). -/
def strangerRumor0 : Rumor := ⟨.privateDirectMessage, 99, "tokenmsg"⟩

/-- A receive environment delivering only the stranger's message. -/
def strangerRecvEnv0 : ReceiveEnv := ⟨.ok "sub1", [.event (.ok strangerRumor0)]⟩

/-- A seller exchange environment delivering the stranger's message, whose
validation succeeds. -/
def sellerEnv0 : ExchangeEnv :=
  ⟨.ok "tok0", .ok (), strangerRecvEnv0, fun s => .ok ⟨s⟩⟩

/-- A receive environment in which the notification channel yields one
receive error and then nothing until the timeout. -/
def recvErrEnv0 : ReceiveEnv := ⟨.ok "sub1", [.recvErr]⟩

/-- A register environment whose only notification is a channel receive
error. -/
def regEnvSwallow0 : RegisterEnv :=
  ⟨.ok "contractjson", .ok (), recvErrEnv0, fun _ => .ok reg0⟩

/-- Register the trade, then advance the produced Registered value. -/
def ops0 : List Op := [.registerTrade 0 nc0 regEnv0, .exchangeToken 1 nc0 xEnv0]

/-- A concrete 32-byte escrow id, every byte `0xab`. -/
def idBytes0 : List Nat := List.replicate 32 171

/-- A registration-send environment in which every step succeeds. -/
def regSendEnv0 : RegistrationSendEnv := ⟨.ok "coordescrowpk", 7, .ok (), .ok ()⟩

/-- A receive environment delivering a channel error and then an event whose
unwrap fails. -/
def unwrapAbortEnv0 : ReceiveEnv :=
  ⟨.ok "sub1", [.recvErr, .event (.error "badwrap")]⟩

/-- A rumor whose kind is not a private direct message. -/
def otherRumor0 : Rumor := ⟨.otherKind, 7, "noise"⟩

/-- Every error the receive loop can end in is a timeout or a
transport-layer failure. -/
theorem processNotifications_error_kinds (xs : List Notification)
    (e : EscrowError) (h : processNotifications xs = .error e) :
    e = .timeout ∨ ∃ m, e = .transport m := by
  induction xs with
  | nil =>
    left
    simp only [processNotifications, Except.error.injEq] at h
    exact h.symm
  | cons n rest ih =>
    cases n with
    | recvErr => exact ih h
    | nonEvent => exact ih h
    | event o =>
      cases o with
      | error m =>
        right
        simp only [processNotifications, Except.error.injEq] at h
        exact ⟨m, h.symm⟩
      | ok r =>
        by_cases hk : r.kind = MsgKind.privateDirectMessage
        · simp [processNotifications, hk] at h
        · rw [processNotifications_skip _ _ (by simpa [skippable] using hk)] at h
          exact ih h

/-- The action trace of `register_trade` is the listener spawn alone, or the
listener spawn followed by the one contract send. -/
theorem register_trade_trace (c : InitEscrowClient) (nc : NostrClient)
    (env : RegisterEnv) :
    (register_trade c nc env).2 = [Action.spawnListen nc.public_key 10]
    ∨ ∃ cm, env.serializeOutcome = .ok cm
        ∧ (register_trade c nc env).2
          = [Action.spawnListen nc.public_key 10,
             Action.send c.escrow_contract.npubkey_coordinator cm] := by
  rcases hs : env.serializeOutcome with e | cm
  · left
    simp [register_trade, hs]
  · right
    refine ⟨cm, rfl, ?_⟩
    rcases hsend : env.sendOutcome with e | u
    · simp [register_trade, hs, hsend]
    · cases u
      rcases hrecv : (receive_escrow_message nc env.recvEnv 10).1 with e | m
      · simp [register_trade, hs, hsend, hrecv]
      · rcases hp : env.parseRegistration m with e | reg
        · simp [register_trade, hs, hsend, hrecv, hp]
        · simp [register_trade, hs, hsend, hrecv, hp]

/-! ## Claim theorems -/

/-- C1: in any sequence of API calls starting from Initialized phase values
only, every TokenExchanged value that becomes live was produced by a
successful `exchange_trade_token` on the Registered phase it holds, and that
Registered phase was itself produced by a successful `register_trade` on the
Initialized phase it holds: the interface offers no other way to construct
the later phases. -/
theorem exchange_requires_prior_registration (store0 : List PhaseVal)
    (ops : List Op) (t : TokenExchangedEscrowClient)
    (hinit : ∀ v ∈ store0, ∃ c, v = PhaseVal.initialized c)
    (hmem : PhaseVal.exchanged t ∈ runStore store0 ops) :
    (∃ nc env, (exchange_trade_token t.prev_state nc env).1 = .ok t)
      ∧ ∃ nc env,
          (register_trade t.prev_state.prev_state nc env).1
            = .ok t.prev_state := by
  have hstore : ∀ v ∈ store0, chainOK v := by
    intro v hv
    obtain ⟨c, rfl⟩ := hinit v hv
    trivial
  exact runStore_chainOK store0 ops hstore _ hmem

/-- Witness for C1: a concrete two-call run from one Initialized value
reaches a TokenExchanged value, and the theorem's provenance chain holds
for it. -/
theorem exchange_requires_prior_registration_witness :
    (∀ v ∈ [PhaseVal.initialized init0], ∃ c, v = PhaseVal.initialized c)
      ∧ (PhaseVal.exchanged tx0 ∈ runStore [PhaseVal.initialized init0] ops0)
      ∧ ((∃ nc env, (exchange_trade_token tx0.prev_state nc env).1 = .ok tx0)
          ∧ ∃ nc env,
              (register_trade tx0.prev_state.prev_state nc env).1
                = .ok tx0.prev_state) :=
  have h1 : ∀ v ∈ [PhaseVal.initialized init0],
      ∃ c, v = PhaseVal.initialized c := by
    intro v hv
    rw [List.mem_singleton] at hv
    exact ⟨init0, hv⟩
  have h2 : PhaseVal.exchanged tx0 ∈ runStore [PhaseVal.initialized init0] ops0 := by
    decide
  ⟨h1, h2, exchange_requires_prior_registration _ _ _ h1 h2⟩

/-- C2 counterexample: the advancing operations borrow their receiver
(`&self` in Rust) instead of consuming it, so the very same Initialized
phase value can be advanced twice; both `register_trade` invocations succeed
and two Registered successors of the one value become live.  The claim's
«no advancing operation can be invoked on it twice» is therefore false. -/
theorem register_trade_reuse_counterexample :
    runStore [PhaseVal.initialized init0]
        [Op.registerTrade 0 nc0 regEnv0, Op.registerTrade 0 nc0 regEnv0]
      = [PhaseVal.initialized init0, PhaseVal.registered rc0,
         PhaseVal.registered rc0] := by
  rfl

/-- C2 as amended: every phase value is created by the single advancing
operation of its predecessor and existing phase values are never mutated or
destroyed by later calls (the store only grows); but advancing borrows the
predecessor rather than consuming it, so phase reuse is expressible. -/
theorem phase_values_append_only (store : List PhaseVal) (ops : List Op) :
    ∃ rest, runStore store ops = store ++ rest
      ∧ ∀ v ∈ rest, createdByAdvance v :=
  runStore_append store ops

/-- C4: every `receive_escrow_message` call balances its subscription: when
the subscribe succeeds the trace is exactly subscribe-then-unsubscribe
whatever the wait's outcome (success, timeout, unwrap failure), when the
subscribe fails nothing was acquired, and when no acceptable message is
delivered within the bound the call returns the distinguishable timeout
error; each call works on a fresh environment, so no listening state leaks
into a subsequent call. -/
theorem receive_releases_subscription (nc : NostrClient) (env : ReceiveEnv)
    (t : Nat) :
    (∀ sid, env.subscribeOutcome = .ok sid →
        (receive_escrow_message nc env t).2
          = [.subscribe (escrowFilter nc) t, .unsubscribe])
    ∧ (∀ e, env.subscribeOutcome = .error e →
        receive_escrow_message nc env t = (.error (.transport e), []))
    ∧ (env.subscribeOutcome.isOk = true →
        (∀ n ∈ env.incoming, skippable n = true) →
        (receive_escrow_message nc env t).1 = .error .timeout) := by
  refine ⟨?_, ?_, ?_⟩
  · intro sid hsid
    simp [receive_escrow_message, hsid]
  · intro e he
    simp [receive_escrow_message, he]
  · intro hok hskip
    rcases hsub : env.subscribeOutcome with e | sid
    · rw [hsub] at hok
      exact Bool.noConfusion hok
    · rw [show (receive_escrow_message nc env t).1
          = processNotifications env.incoming by
            simp [receive_escrow_message, hsub],
        ← List.append_nil env.incoming,
        processNotifications_append _ _ hskip]
      rfl

/-- C5: `register_trade` spawns the inbound-registration listener as its
first action — every send in its trace comes strictly after — and when the
send succeeds and the listener's wait yields a parseable reply, the trade
registers with that reply. -/
theorem listen_spawned_before_send (c : InitEscrowClient) (nc : NostrClient)
    (env : RegisterEnv) :
    (register_trade c nc env).2.head?
      = some (Action.spawnListen nc.public_key 10)
    ∧ (∀ p s i, (register_trade c nc env).2[i]? = some (Action.send p s) →
        0 < i)
    ∧ ∀ m reg, env.serializeOutcome.isOk = true → env.sendOutcome = .ok () →
        (receive_escrow_message nc env.recvEnv 10).1 = .ok m →
        env.parseRegistration m = .ok reg →
        (register_trade c nc env).1
          = .ok { prev_state := c, escrow_registration := reg } := by
  refine ⟨?_, ?_, ?_⟩
  · rcases register_trade_trace c nc env with h | ⟨cm, _, h⟩ <;> rw [h] <;> rfl
  · intro p s i hi
    cases i with
    | zero =>
      rcases register_trade_trace c nc env with h | ⟨cm, _, h⟩ <;>
        rw [h] at hi <;> simp at hi
    | succ n => exact Nat.succ_pos n
  · intro m reg hser hsend hrecv hparse
    rcases hs : env.serializeOutcome with e | cm
    · rw [hs] at hser
      exact Bool.noConfusion hser
    · simp [register_trade, hs, hsend, hrecv, hparse]

/-- C10: inside the receive wait, a gift-wrapped event whose unwrap fails
aborts the call at once with that transport error, whatever arrives
afterwards; by contrast a channel receive error, a non-event notification,
and an unwrapped rumor of a different kind are skipped silently and the
wait continues. -/
theorem unwrap_error_aborts_skips_continue (nc : NostrClient)
    (env : ReceiveEnv) (t : Nat) (sid e : String)
    (pre rest : List Notification) (r : Rumor)
    (hsub : env.subscribeOutcome = .ok sid)
    (hpre : ∀ n ∈ pre, skippable n = true)
    (hinc : env.incoming = pre ++ Notification.event (.error e) :: rest) :
    (receive_escrow_message nc env t).1 = .error (.transport e)
    ∧ processNotifications (.recvErr :: rest) = processNotifications rest
    ∧ processNotifications (.nonEvent :: rest) = processNotifications rest
    ∧ (r.kind ≠ .privateDirectMessage →
        processNotifications (.event (.ok r) :: rest)
          = processNotifications rest) := by
  refine ⟨?_, rfl, rfl, ?_⟩
  · rw [show (receive_escrow_message nc env t).1
        = processNotifications env.incoming by
          simp [receive_escrow_message, hsub],
      hinc, processNotifications_append _ _ hpre]
    rfl
  · intro hk
    simp [processNotifications, hk]

/-- Witness for C10: a concrete environment delivering one channel error and
then an event whose unwrap fails with "badwrap"; the call aborts with that
error and the skip equations hold for the non-matching rumor. -/
theorem unwrap_error_aborts_skips_continue_witness :
    unwrapAbortEnv0.subscribeOutcome = .ok "sub1"
    ∧ (∀ n ∈ [Notification.recvErr], skippable n = true)
    ∧ unwrapAbortEnv0.incoming
        = [Notification.recvErr] ++ Notification.event (.error "badwrap") :: []
    ∧ ((receive_escrow_message nc0 unwrapAbortEnv0 10).1
          = .error (.transport "badwrap")
        ∧ processNotifications (.recvErr :: []) = processNotifications []
        ∧ processNotifications (.nonEvent :: []) = processNotifications []
        ∧ (otherRumor0.kind ≠ .privateDirectMessage →
            processNotifications (.event (.ok otherRumor0) :: [])
              = processNotifications [])) :=
  ⟨rfl, by decide, rfl,
    unwrap_error_aborts_skips_continue nc0 unwrapAbortEnv0 10 "sub1" "badwrap"
      [Notification.recvErr] [] otherRumor0 rfl (by decide) rfl⟩

/-- C3 counterexample: the seller-branch receive is not restricted to the
buyer: in a concrete run, the one delivered direct message is authored by
key 99 while the contract's buyer is key 2, yet the message is accepted,
validated, and the TokenExchanged phase is produced.  The claim's «only a
message from the buyer is accepted» is therefore false. -/
theorem nonbuyer_sender_accepted :
    strangerRumor0.sender ≠ rcSeller0.prev_state.escrow_contract.npubkey_buyer
    ∧ sellerEnv0.recvEnv.incoming = [.event (.ok strangerRumor0)]
    ∧ (exchange_trade_token rcSeller0 nc0 sellerEnv0).1
        = .ok { prev_state := rcSeller0 } :=
  ⟨by decide, rfl, rfl⟩

/-- C3 as amended: the seller branch waits on a subscription to gift-wrap
events addressed to the client's own identity with the same timeout bound
(10) as registration, accepts the first private direct message regardless
of its author, validates the received payload, fails only with transport,
timeout, or validation errors, and produces the TokenExchanged phase
exactly when validation succeeds. -/
theorem seller_branch_behavior (r : RegisteredEscrowClient)
    (nc : NostrClient) (env : ExchangeEnv) (sid : String)
    (hmode : r.prev_state.trade_mode = .seller)
    (hsub : env.recvEnv.subscribeOutcome = .ok sid) :
    Action.subscribe (escrowFilter nc) 10 ∈ (exchange_trade_token r nc env).2
    ∧ (∀ m, (receive_escrow_message nc env.recvEnv 10).1 = .ok m →
        Action.validateToken m ∈ (exchange_trade_token r nc env).2
        ∧ ((env.validateOutcome m).isOk = true →
            (exchange_trade_token r nc env).1 = .ok { prev_state := r })
        ∧ ∀ e, env.validateOutcome m = .error e →
            (exchange_trade_token r nc env).1 = .error (.validation e))
    ∧ ∀ e, (exchange_trade_token r nc env).1 = .error e →
        (∃ msg, e = .transport msg) ∨ e = .timeout
          ∨ ∃ msg, e = .validation msg := by
  have hrec : receive_escrow_message nc env.recvEnv 10
      = (processNotifications env.recvEnv.incoming,
         [.subscribe (escrowFilter nc) 10, .unsubscribe]) := by
    simp [receive_escrow_message, hsub]
  rcases hproc : processNotifications env.recvEnv.incoming with e | m
  · have hx : exchange_trade_token r nc env
        = (.error e, [.subscribe (escrowFilter nc) 10, .unsubscribe]) := by
      simp [exchange_trade_token, hmode, receive_and_validate_trade_token,
        hrec, hproc]
    refine ⟨by rw [hx]; simp, ?_, ?_⟩
    · intro m hm
      rw [hrec] at hm
      simp [hproc] at hm
    · intro e' he'
      rw [hx] at he'
      simp only [Except.error.injEq] at he'
      subst he'
      rcases processNotifications_error_kinds _ _ hproc with h | ⟨mm, h⟩
      · exact Or.inr (Or.inl h)
      · exact Or.inl ⟨mm, h⟩
  · rcases hv : env.validateOutcome m with ve | tok
    · have hx : exchange_trade_token r nc env
          = (.error (.validation ve),
             [.subscribe (escrowFilter nc) 10, .unsubscribe,
              .validateToken m]) := by
        simp [exchange_trade_token, hmode, receive_and_validate_trade_token,
          hrec, hproc, hv]
      refine ⟨by rw [hx]; simp, ?_, ?_⟩
      · intro m' hm'
        rw [hrec] at hm'
        simp only at hm'
        rw [hproc] at hm'
        simp only [Except.ok.injEq] at hm'
        subst hm'
        refine ⟨by rw [hx]; simp, ?_, ?_⟩
        · intro hvok
          rw [hv] at hvok
          exact Bool.noConfusion hvok
        · intro e' he'
          rw [hv] at he'
          simp only [Except.error.injEq] at he'
          subst he'
          rw [hx]
      · intro e' he'
        rw [hx] at he'
        simp only [Except.error.injEq] at he'
        subst he'
        exact Or.inr (Or.inr ⟨ve, rfl⟩)
    · have hx : exchange_trade_token r nc env
          = (.ok { prev_state := r },
             [.subscribe (escrowFilter nc) 10, .unsubscribe,
              .validateToken m]) := by
        simp [exchange_trade_token, hmode, receive_and_validate_trade_token,
          hrec, hproc, hv]
      refine ⟨by rw [hx]; simp, ?_, ?_⟩
      · intro m' hm'
        rw [hrec] at hm'
        simp only at hm'
        rw [hproc] at hm'
        simp only [Except.ok.injEq] at hm'
        subst hm'
        refine ⟨by rw [hx]; simp, fun _ => by rw [hx], ?_⟩
        intro e' he'
        rw [hv] at he'
        simp at he'
      · intro e' he'
        rw [hx] at he'
        simp at he'

/-- Witness for C3: the concrete seller-mode run through
`exchange_trade_token` satisfies the amended seller-branch description. -/
theorem seller_branch_behavior_witness :
    rcSeller0.prev_state.trade_mode = TradeMode.seller
    ∧ sellerEnv0.recvEnv.subscribeOutcome = .ok "sub1"
    ∧ (Action.subscribe (escrowFilter nc0) 10
          ∈ (exchange_trade_token rcSeller0 nc0 sellerEnv0).2
        ∧ (∀ m, (receive_escrow_message nc0 sellerEnv0.recvEnv 10).1 = .ok m →
            Action.validateToken m
                ∈ (exchange_trade_token rcSeller0 nc0 sellerEnv0).2
            ∧ ((sellerEnv0.validateOutcome m).isOk = true →
                (exchange_trade_token rcSeller0 nc0 sellerEnv0).1
                  = .ok { prev_state := rcSeller0 })
            ∧ ∀ e, sellerEnv0.validateOutcome m = .error e →
                (exchange_trade_token rcSeller0 nc0 sellerEnv0).1
                  = .error (.validation e))
        ∧ ∀ e, (exchange_trade_token rcSeller0 nc0 sellerEnv0).1 = .error e →
            (∃ msg, e = .transport msg) ∨ e = .timeout
              ∨ ∃ msg, e = .validation msg) :=
  ⟨rfl, rfl, seller_branch_behavior rcSeller0 nc0 sellerEnv0 "sub1" rfl rfl⟩

/-- C6: the buyer branch first mints; a mint failure is a wallet error and
nothing is sent; on a minted token the branch sends exactly that token to
the seller's identity, a send failure is a transport error, and the
TokenExchanged phase is produced exactly when both steps succeed. -/
theorem buyer_branch_behavior (r : RegisteredEscrowClient)
    (nc : NostrClient) (env : ExchangeEnv)
    (hmode : r.prev_state.trade_mode = .buyer) :
    (∀ e, env.mintOutcome = .error e →
        exchange_trade_token r nc env
          = (.error (.wallet e), [.createEscrowToken]))
    ∧ (∀ tok, env.mintOutcome = .ok tok →
        (∀ e, env.sendOutcome = .error e →
            exchange_trade_token r nc env
              = (.error (.transport e),
                 [.createEscrowToken,
                  .send r.prev_state.escrow_contract.npubkey_seller tok]))
        ∧ (env.sendOutcome = .ok () →
            exchange_trade_token r nc env
              = (.ok { prev_state := r },
                 [.createEscrowToken,
                  .send r.prev_state.escrow_contract.npubkey_seller tok])))
    ∧ ((exchange_trade_token r nc env).1.isOk = true ↔
        env.mintOutcome.isOk = true ∧ env.sendOutcome.isOk = true) := by
  refine ⟨?_, ?_, ?_⟩
  · intro e he
    simp [exchange_trade_token, hmode, send_trade_token, he]
  · intro tok htok
    refine ⟨?_, ?_⟩
    · intro e he
      simp [exchange_trade_token, hmode, send_trade_token, htok, he]
    · intro hsend
      simp [exchange_trade_token, hmode, send_trade_token, htok, hsend]
  · constructor
    · intro h
      rcases hm : env.mintOutcome with e | tok
      · rw [show exchange_trade_token r nc env
            = (.error (.wallet e), [.createEscrowToken]) by
              simp [exchange_trade_token, hmode, send_trade_token, hm]] at h
        exact Bool.noConfusion h
      · rcases hs : env.sendOutcome with e | u
        · rw [show exchange_trade_token r nc env
              = (.error (.transport e),
                 [.createEscrowToken,
                  .send r.prev_state.escrow_contract.npubkey_seller tok]) by
                simp [exchange_trade_token, hmode, send_trade_token, hm, hs]] at h
          exact Bool.noConfusion h
        · exact ⟨rfl, rfl⟩
    · rintro ⟨h1, h2⟩
      rcases hm : env.mintOutcome with e | tok
      · rw [hm] at h1
        exact Bool.noConfusion h1
      · rcases hs : env.sendOutcome with e | u
        · rw [hs] at h2
          exact Bool.noConfusion h2
        · cases u
          rw [show exchange_trade_token r nc env
              = (.ok { prev_state := r },
                 [.createEscrowToken,
                  .send r.prev_state.escrow_contract.npubkey_seller tok]) by
                simp [exchange_trade_token, hmode, send_trade_token, hm, hs]]
          rfl

/-- Witness for C6: the concrete buyer-mode run through
`exchange_trade_token` satisfies the buyer-branch description. -/
theorem buyer_branch_behavior_witness :
    rc0.prev_state.trade_mode = TradeMode.buyer
    ∧ ((∀ e, xEnv0.mintOutcome = .error e →
          exchange_trade_token rc0 nc0 xEnv0
            = (.error (.wallet e), [.createEscrowToken]))
        ∧ (∀ tok, xEnv0.mintOutcome = .ok tok →
            (∀ e, xEnv0.sendOutcome = .error e →
                exchange_trade_token rc0 nc0 xEnv0
                  = (.error (.transport e),
                     [.createEscrowToken,
                      .send rc0.prev_state.escrow_contract.npubkey_seller tok]))
            ∧ (xEnv0.sendOutcome = .ok () →
                exchange_trade_token rc0 nc0 xEnv0
                  = (.ok { prev_state := rc0 },
                     [.createEscrowToken,
                      .send rc0.prev_state.escrow_contract.npubkey_seller tok])))
        ∧ ((exchange_trade_token rc0 nc0 xEnv0).1.isOk = true ↔
            xEnv0.mintOutcome.isOk = true ∧ xEnv0.sendOutcome.isOk = true)) :=
  ⟨rfl, buyer_branch_behavior rc0 nc0 xEnv0 rfl⟩

/-- C7 counterexample: a notification-channel receive error arising during
the `register_trade` transition is not surfaced to the caller: the run
whose only notification is a channel error returns the plain timeout
outcome, so this error was swallowed rather than propagated. -/
theorem recv_error_not_surfaced :
    Notification.recvErr ∈ regEnvSwallow0.recvEnv.incoming
    ∧ (register_trade init0 nc0 regEnvSwallow0).1 = .error .timeout :=
  ⟨by decide, rfl⟩

/-- C7 as amended: each phase transition is all-or-nothing — it returns the
fully-formed successor phase exactly when every step succeeded, and
otherwise the error of the first failing step, unchanged: for
`register_trade` serialization, send, receive and parse, and for
`exchange_trade_token` mint and send in the buyer branch, receive and
validation in the seller branch; but notification-channel receive errors
inside the receive wait are skipped, not surfaced. -/
theorem transitions_all_or_nothing (c : InitEscrowClient) (nc : NostrClient)
    (renv : RegisterEnv) (r : RegisteredEscrowClient) (xenv : ExchangeEnv) :
    ((register_trade c nc renv).1.isOk = true ↔
        ∃ m reg, (receive_escrow_message nc renv.recvEnv 10).1 = .ok m
          ∧ renv.parseRegistration m = .ok reg
          ∧ renv.serializeOutcome.isOk = true
          ∧ renv.sendOutcome.isOk = true
          ∧ (register_trade c nc renv).1
              = .ok { prev_state := c, escrow_registration := reg })
    ∧ (∀ e, renv.serializeOutcome = .error e →
        (register_trade c nc renv).1 = .error (.serializeFail e))
    ∧ (∀ cm e, renv.serializeOutcome = .ok cm → renv.sendOutcome = .error e →
        (register_trade c nc renv).1 = .error (.transport e))
    ∧ (∀ cm e, renv.serializeOutcome = .ok cm → renv.sendOutcome = .ok () →
        (receive_escrow_message nc renv.recvEnv 10).1 = .error e →
        (register_trade c nc renv).1 = .error e)
    ∧ (∀ cm m e, renv.serializeOutcome = .ok cm → renv.sendOutcome = .ok () →
        (receive_escrow_message nc renv.recvEnv 10).1 = .ok m →
        renv.parseRegistration m = .error e →
        (register_trade c nc renv).1 = .error (.protocol e))
    ∧ (∀ e, r.prev_state.trade_mode = .buyer → xenv.mintOutcome = .error e →
        (exchange_trade_token r nc xenv).1 = .error (.wallet e))
    ∧ (∀ tok e, r.prev_state.trade_mode = .buyer →
        xenv.mintOutcome = .ok tok → xenv.sendOutcome = .error e →
        (exchange_trade_token r nc xenv).1 = .error (.transport e))
    ∧ (∀ e, r.prev_state.trade_mode = .seller →
        (receive_escrow_message nc xenv.recvEnv 10).1 = .error e →
        (exchange_trade_token r nc xenv).1 = .error e)
    ∧ (∀ m e, r.prev_state.trade_mode = .seller →
        (receive_escrow_message nc xenv.recvEnv 10).1 = .ok m →
        xenv.validateOutcome m = .error e →
        (exchange_trade_token r nc xenv).1 = .error (.validation e))
    ∧ ((exchange_trade_token r nc xenv).1.isOk = true ↔
        (exchange_trade_token r nc xenv).1 = .ok { prev_state := r }) := by
  refine ⟨?_, ?_, ?_, ?_, ?_, ?_, ?_, ?_, ?_, ?_⟩
  · constructor
    · intro h
      rcases hs : renv.serializeOutcome with e | cm
      · rw [show (register_trade c nc renv).1 = .error (.serializeFail e) by
            simp [register_trade, hs]] at h
        exact Bool.noConfusion h
      · rcases hsend : renv.sendOutcome with e | u
        · rw [show (register_trade c nc renv).1 = .error (.transport e) by
              simp [register_trade, hs, hsend]] at h
          exact Bool.noConfusion h
        · cases u
          rcases hrecv : (receive_escrow_message nc renv.recvEnv 10).1 with e | m
          · rw [show (register_trade c nc renv).1 = .error e by
                simp [register_trade, hs, hsend, hrecv]] at h
            exact Bool.noConfusion h
          · rcases hp : renv.parseRegistration m with e | reg
            · rw [show (register_trade c nc renv).1 = .error (.protocol e) by
                  simp [register_trade, hs, hsend, hrecv, hp]] at h
              exact Bool.noConfusion h
            · exact ⟨m, reg, rfl, hp, rfl, rfl,
                by simp [register_trade, hs, hsend, hrecv, hp]⟩
    · rintro ⟨m, reg, hrecv, hp, hser, hsend, hres⟩
      rw [hres]
      rfl
  · intro e he
    simp [register_trade, he]
  · intro cm e hs he
    simp [register_trade, hs, he]
  · intro cm e hs hsend hrecv
    simp [register_trade, hs, hsend, hrecv]
  · intro cm m e hs hsend hrecv hp
    simp [register_trade, hs, hsend, hrecv, hp]
  · intro e hmode he
    simp [exchange_trade_token, hmode, send_trade_token, he]
  · intro tok e hmode htok he
    simp [exchange_trade_token, hmode, send_trade_token, htok, he]
  · intro e hmode hrecv
    rcases hpair : receive_escrow_message nc xenv.recvEnv 10 with ⟨res, tr⟩
    rw [hpair] at hrecv
    simp only at hrecv
    subst hrecv
    simp [exchange_trade_token, hmode, receive_and_validate_trade_token, hpair]
  · intro m e hmode hrecv hv
    rcases hpair : receive_escrow_message nc xenv.recvEnv 10 with ⟨res, tr⟩
    rw [hpair] at hrecv
    simp only at hrecv
    subst hrecv
    simp [exchange_trade_token, hmode, receive_and_validate_trade_token,
      hpair, hv]
  · constructor
    · intro h
      rcases hres : (exchange_trade_token r nc xenv).1 with e | t
      · rw [hres] at h
        exact Bool.noConfusion h
      · have hprev : t.prev_state = r :=
          exchange_trade_token_ok_prev _ _ _ _ hres
        cases t
        simp_all
    · intro h
      rw [h]
      rfl

/-- Bytes hex-encode to two characters each. -/
theorem hexEncode_length (bs : List Nat) :
    (hexEncode bs).length = 2 * bs.length := by
  induction bs with
  | nil => rfl
  | cons b bs ih =>
    rw [hexEncode, String.length_append, ih]
    have hb : (byteHex b).length = 2 := rfl
    rw [hb]
    simp only [List.length_cons]
    omega

/-- C9: with a parseable coordinator trade key and working transport,
`send_escrow_registration` serializes one registration record — the hex
encoding of the 32-byte escrow id (64 hex characters), the coordinator
escrow public key, the start timestamp — and sends that identical JSON
payload in two separate sends, one to each receiver identity. -/
theorem registration_identical_two_sends (receivers : PublicKey × PublicKey)
    (id : List Nat) (tpk pk : String) (env : RegistrationSendEnv)
    (hid : id.length = 32)
    (hpk : env.fromHexOutcome = .ok pk)
    (h1 : env.send1Outcome = .ok ())
    (h2 : env.send2Outcome = .ok ()) :
    send_escrow_registration receivers id tpk env
      = (.ok (),
         [Action.send receivers.1
            (registrationJson
              { escrow_id_hex := hexEncode id,
                coordinator_escrow_pubkey := pk,
                escrow_start_time := env.now }),
          Action.send receivers.2
            (registrationJson
              { escrow_id_hex := hexEncode id,
                coordinator_escrow_pubkey := pk,
                escrow_start_time := env.now })])
    ∧ (hexEncode id).length = 64 := by
  constructor
  · simp [send_escrow_registration, hpk, h1, h2]
  · rw [hexEncode_length, hid]

/-- Witness for C9: the concrete 32-byte id and succeeding environment
yield the two identical sends. -/
theorem registration_identical_two_sends_witness :
    idBytes0.length = 32
    ∧ regSendEnv0.fromHexOutcome = .ok "coordescrowpk"
    ∧ regSendEnv0.send1Outcome = .ok ()
    ∧ regSendEnv0.send2Outcome = .ok ()
    ∧ (send_escrow_registration (4, 5) idBytes0 "sometradepk" regSendEnv0
        = (.ok (),
           [Action.send (4, 5).1
              (registrationJson
                { escrow_id_hex := hexEncode idBytes0,
                  coordinator_escrow_pubkey := "coordescrowpk",
                  escrow_start_time := regSendEnv0.now }),
            Action.send (4, 5).2
              (registrationJson
                { escrow_id_hex := hexEncode idBytes0,
                  coordinator_escrow_pubkey := "coordescrowpk",
                  escrow_start_time := regSendEnv0.now })])
        ∧ (hexEncode idBytes0).length = 64) :=
  ⟨rfl, rfl, rfl, rfl,
    registration_identical_two_sends (4, 5) idBytes0 "sometradepk"
      "coordescrowpk" regSendEnv0 rfl rfl rfl rfl⟩

/-- C8: `do_your_trade_duties` is an unimplemented placeholder: at the
concrete TokenExchanged client it returns plain unit success, carrying no
Released-or-Disputed classification (and the Rust method borrows `&self`
rather than consuming the phase). -/
theorem do_your_trade_duties_unit : do_your_trade_duties tx0 = .ok () := rfl

end CashuEscrow
